import Mathlib

/-!
Verification of the throttle-ro fixed-window rate limiter.

The repository's single component is `ThrottlesService` (src/src/lib.rs): a
throttle keyed by an IP string, holding a maximum attempt count (`u32`), a
time window (`Duration`) and a cache-key namespacing string, operating
against an external TTL cache collaborator (`cache_ro::Cache`).

The cache itself is not part of this repository; it is modelled from the
collaborator contract the spec records (get returns an optional stored
count, set-with-ttl and remove return a Result that may carry a
`CacheError`, expire returns the optional remaining time-to-live).
Fallibility of set/remove is modelled by fault flags on the cache state.

The Rust methods `hit` and `remove` call `.unwrap()` on the cache Result,
so a failing write or delete makes the thread panic; outcomes of running a
throttle operation are therefore modelled by `Outcome`, which distinguishes
a normal return (with the resulting cache state), a returned error value
(what a Result-returning signature would produce - the code never produces
this), and a panic.

Machine integers: the stored count is a Rust `u32`; `v + 1` is embedded as
`(v + 1) % 2 ^ 32`, the wrapping u32 increment.
-/

namespace ThrottleRo

/-- Durations (Rust std::time::Duration) are modelled as abstract ticks. -/
abbrev Duration := Nat

/-- The modulus of u32 arithmetic, 2 ^ 32. -/
def U32_MOD : Nat := 4294967296

/-- One cache entry: the stored u32 attempt count and the remaining
time-to-live, absent when the entry has no TTL recorded. -/
structure Entry where
  value : Nat
  ttl : Option Duration
  deriving DecidableEq

/-- Collaborator-defined error returned by failing cache writes/deletes. -/
inductive CacheError where
  | cacheError
  deriving DecidableEq

/-- State of the external cache collaborator, modelled from the contract in
the spec: a key-value store with per-key TTL, plus fault flags saying
whether the fallible operations (set, remove) fail with a `CacheError`. -/
structure Cache where
  store : List (String × Entry)
  setFails : Bool
  removeFails : Bool
  deriving DecidableEq

/-- Entry stored under a key, if any. -/
def Cache.lookup (c : Cache) (k : String) : Option Entry :=
  (c.store.find? (fun p => p.1 == k)).map Prod.snd

/-- Cache contract: get returns the stored count, or absent. -/
def Cache.get (c : Cache) (k : String) : Option Nat :=
  (c.lookup k).map Entry.value

/-- Cache contract: expire returns the remaining time-to-live, or absent
when the key has no entry or no TTL recorded. -/
def Cache.expire (c : Cache) (k : String) : Option Duration :=
  (c.lookup k).bind Entry.ttl

/-- Cache contract: set stores value with the given TTL, overwriting any
previous value/TTL for that key; may fail with a `CacheError`. -/
def Cache.set (c : Cache) (k : String) (v : Nat) (t : Duration) :
    Except CacheError Cache :=
  if c.setFails then Except.error CacheError.cacheError
  else Except.ok
    { c with store := (k, ⟨v, some t⟩) :: c.store.filter (fun p => !(p.1 == k)) }

/-- Cache contract: remove deletes the entry for the key (a no-op when
absent); may fail with a `CacheError`. -/
def Cache.remove (c : Cache) (k : String) : Except CacheError Cache :=
  if c.removeFails then Except.error CacheError.cacheError
  else Except.ok { c with store := c.store.filter (fun p => !(p.1 == k)) }

/-- The throttle configuration tuple (struct ThrottlesService in
src/src/lib.rs). The Rust field holding the cache-key namespacing string
is called pre here. -/
structure ThrottlesService where
  ip : String
  max_attempts : Nat
  period : Duration
  pre : String
  deriving DecidableEq

/-- key(): the namespacing string concatenated with the ip (format! with no
separator). -/
def ThrottlesService.key (t : ThrottlesService) : String :=
  t.pre ++ t.ip

/-- get_value(): cache.get on key(). -/
def ThrottlesService.get_value (t : ThrottlesService) (c : Cache) : Option Nat :=
  c.get t.key

/-- can_go(): stored count (absent read as 0) strictly below max_attempts. -/
def ThrottlesService.can_go (t : ThrottlesService) (c : Cache) : Bool :=
  decide ((t.get_value c).getD 0 < t.max_attempts)

/-- get_expire(): the cache-reported remaining TTL for key(), defaulting to
the configured period when the cache reports none. -/
def ThrottlesService.get_expire (t : ThrottlesService) (c : Cache) : Duration :=
  match c.expire t.key with
  | none => t.period
  | some a => a

/-- Outcome of running a throttle operation against the cache: a normal
return together with the cache state left behind, a `CacheError` returned
to the caller as a value, or a panic (Rust unwrap on an Err). -/
inductive Outcome (α : Type) where
  | ok (val : α) (c : Cache)
  | err (e : CacheError)
  | panicked
  deriving DecidableEq

/-- Running cache.get: an infallible query, state unchanged. -/
def Cache.get_run (c : Cache) (k : String) : Outcome (Option Nat) :=
  Outcome.ok (c.get k) c

/-- Running cache.expire: an infallible query, state unchanged. -/
def Cache.expire_run (c : Cache) (k : String) : Outcome (Option Duration) :=
  Outcome.ok (c.expire k) c

/-- Running can_go: one cache.get, then the comparison with max_attempts. -/
def ThrottlesService.can_go_run (t : ThrottlesService) (c : Cache) : Outcome Bool :=
  match Cache.get_run c t.key with
  | Outcome.ok v c1 => Outcome.ok (decide (v.getD 0 < t.max_attempts)) c1
  | Outcome.err e => Outcome.err e
  | Outcome.panicked => Outcome.panicked

/-- Running get_expire: one cache.expire, absence defaulted to the period. -/
def ThrottlesService.get_expire_run (t : ThrottlesService) (c : Cache) :
    Outcome Duration :=
  match Cache.expire_run c t.key with
  | Outcome.ok none c1 => Outcome.ok t.period c1
  | Outcome.ok (some a) c1 => Outcome.ok a c1
  | Outcome.err e => Outcome.err e
  | Outcome.panicked => Outcome.panicked

/-- Running hit: compute key and get_expire, read the current value, then
set count 1 (no entry) or the wrapping u32 increment (entry present) with
the computed TTL; the Result of set is unwrapped, so an Err panics. -/
def ThrottlesService.hit_run (t : ThrottlesService) (c : Cache) : Outcome Unit :=
  let k := t.key
  let ex := t.get_expire c
  match t.get_value c with
  | none =>
    match c.set k 1 ex with
    | Except.ok c1 => Outcome.ok () c1
    | Except.error _ => Outcome.panicked
  | some v =>
    match c.set k ((v + 1) % U32_MOD) ex with
    | Except.ok c1 => Outcome.ok () c1
    | Except.error _ => Outcome.panicked

/-- Running remove: cache.remove on key(), its Result unwrapped, so an Err
panics. -/
def ThrottlesService.remove_run (t : ThrottlesService) (c : Cache) : Outcome Unit :=
  match c.remove t.key with
  | Except.ok c1 => Outcome.ok () c1
  | Except.error _ => Outcome.panicked

/-- n successive runs of hit (keeping the state unchanged on the panic and
error outcomes, which never arise on a cache whose writes succeed). -/
def ThrottlesService.iterHit (t : ThrottlesService) : Nat → Cache → Cache
  | 0, c => c
  | n + 1, c =>
    match t.hit_run (t.iterHit n c) with
    | Outcome.ok _ c1 => c1
    | _ => t.iterHit n c

/-- A cache with no entries whose writes and deletes succeed. -/
def cEmpty : Cache := ⟨[], false, false⟩

/-- A cache whose writes and deletes fail with a CacheError. -/
def cFail : Cache := ⟨[], true, true⟩

/-- Sample throttle: ip 10.0.0.1, limit 5, window 60, namespacing rl_. -/
def tS : ThrottlesService := ⟨"10.0.0.1", 5, 60, "rl_"⟩

/-- Sample throttle with limit 0. -/
def tZero : ThrottlesService := ⟨"10.0.0.1", 0, 60, "rl_"⟩

/-- Sample throttle used in concrete instances: ip, limit 3, window 60. -/
def t2w : ThrottlesService := ⟨"ip", 3, 60, "p"⟩

/-- Cache holding the maximal u32 count under t2w's key, remaining TTL 42. -/
def cOv : Cache := ⟨[("pip", ⟨4294967295, some 42⟩)], false, false⟩

/-- Cache holding count 1 under t2w's key with remaining TTL 60, equal to
t2w's configured window. -/
def c6 : Cache := ⟨[("pip", ⟨1, some 60⟩)], false, false⟩

/-- Cache holding entries for t2w's key and for an unrelated key. -/
def cW : Cache := ⟨[("pip", ⟨2, some 30⟩), ("other", ⟨9, some 5⟩)], false, false⟩

/-- cW after deleting t2w's key. -/
def c1W : Cache := ⟨[("other", ⟨9, some 5⟩)], false, false⟩

/-- Throttle with namespacing string q, used with c9. -/
def t9 : ThrottlesService := ⟨"ip", 3, 60, "q"⟩

/-- Cache holding the maximal u32 count under t9's key, remaining TTL 30. -/
def c9 : Cache := ⟨[("qip", ⟨4294967295, some 30⟩)], false, false⟩

/-- c9 after one hit by t9: the count wrapped to 0. -/
def c9r : Cache := ⟨[("qip", ⟨0, some 30⟩)], false, false⟩

/-- Throttle with namespacing string p_a and identity b. -/
def tA : ThrottlesService := ⟨"b", 5, 60, "p_a"⟩

/-- Throttle with namespacing string p_ and identity ab. -/
def tB : ThrottlesService := ⟨"ab", 5, 60, "p_"⟩

lemma find?_filter_none (l : List (String × Entry)) (k : String) :
    (l.filter (fun p => !(p.1 == k))).find? (fun p => p.1 == k) = none := by
  induction l with
  | nil => rfl
  | cons a l ih =>
    by_cases h : a.1 == k
    · simp [List.filter_cons, h, ih]
    · simp [List.filter_cons, h, List.find?_cons, ih]

lemma lookup_update (c : Cache) (k : String) (e : Entry)
    (l : List (String × Entry)) :
    Cache.lookup { c with store := (k, e) :: l } k = some e := by
  simp [Cache.lookup, List.find?_cons]

lemma hit_run_none (t : ThrottlesService) (c : Cache) (hf : c.setFails = false)
    (h0 : c.lookup t.key = none) :
    t.hit_run c = Outcome.ok ()
      { c with store :=
          (t.key, ⟨1, some t.period⟩) :: c.store.filter (fun p => !(p.1 == t.key)) } := by
  have hget : t.get_value c = none := by
    simp [ThrottlesService.get_value, Cache.get, h0]
  have hex : Cache.expire c t.key = none := by simp [Cache.expire, h0]
  simp [ThrottlesService.hit_run, hget, ThrottlesService.get_expire, hex,
    Cache.set, hf]

lemma hit_run_some (t : ThrottlesService) (c : Cache) (v : Nat)
    (d : Option Duration) (hf : c.setFails = false)
    (hl : c.lookup t.key = some ⟨v, d⟩) :
    t.hit_run c = Outcome.ok ()
      { c with store :=
          (t.key, ⟨(v + 1) % U32_MOD, some (d.getD t.period)⟩) ::
            c.store.filter (fun p => !(p.1 == t.key)) } := by
  have hget : t.get_value c = some v := by
    simp [ThrottlesService.get_value, Cache.get, hl]
  have hex : Cache.expire c t.key = d := by simp [Cache.expire, hl]
  cases d with
  | none =>
    simp [ThrottlesService.hit_run, hget, ThrottlesService.get_expire, hex,
      Cache.set, hf]
  | some a =>
    simp [ThrottlesService.hit_run, hget, ThrottlesService.get_expire, hex,
      Cache.set, hf]

lemma iterHit_lookup (t : ThrottlesService) (c : Cache)
    (hf : c.setFails = false) (h0 : c.lookup t.key = none) :
    ∀ n, 1 ≤ n →
      (t.iterHit n c).lookup t.key = some ⟨n % U32_MOD, some t.period⟩ ∧
      (t.iterHit n c).setFails = false := by
  intro n
  induction n with
  | zero => intro h; omega
  | succ m ih =>
    intro _
    rcases Nat.eq_zero_or_pos m with hm | hm
    · subst hm
      have hstep := hit_run_none t c hf h0
      have h1 : t.iterHit 1 c =
          { c with store :=
              (t.key, ⟨1, some t.period⟩) ::
                c.store.filter (fun p => !(p.1 == t.key)) } := by
        simp [ThrottlesService.iterHit, hstep]
      rw [h1]
      refine ⟨?_, hf⟩
      rw [lookup_update]
      have : (1 : Nat) % U32_MOD = 1 := by simp [U32_MOD]
      rw [this]
    · obtain ⟨hl, hsf⟩ := ih hm
      have hstep := hit_run_some t (t.iterHit m c) (m % U32_MOD) (some t.period) hsf hl
      have h1 : t.iterHit (m + 1) c =
          { t.iterHit m c with store :=
              (t.key, ⟨(m % U32_MOD + 1) % U32_MOD, some t.period⟩) ::
                (t.iterHit m c).store.filter (fun p => !(p.1 == t.key)) } := by
        simp [ThrottlesService.iterHit, hstep]
      rw [h1]
      refine ⟨?_, hsf⟩
      rw [lookup_update]
      have : (m % U32_MOD + 1) % U32_MOD = (m + 1) % U32_MOD := by
        simp only [U32_MOD]
        omega
      rw [this]

/-- C1: can_go is true iff the count stored under key() (absent read as 0)
is strictly below the limit; an identity never hit is allowed whenever the
limit is at least 1. -/
theorem can_go_iff : ∀ (t : ThrottlesService) (c : Cache),
    (t.can_go c = true ↔ (c.get t.key).getD 0 < t.max_attempts) ∧
    (c.get t.key = none → 1 ≤ t.max_attempts → t.can_go c = true) := by
  intro t c
  constructor
  · simp [ThrottlesService.can_go, ThrottlesService.get_value]
  · intro h hm
    simp [ThrottlesService.can_go, ThrottlesService.get_value, h]
    omega

/-- Witness for C1 at a concrete input: a never-hit identity with limit 5
is allowed. -/
theorem can_go_iff_w : tS.can_go cEmpty = true :=
  (can_go_iff tS cEmpty).2 rfl (by decide)

/-- C2 (amended): on a cache whose writes succeed, hit writes count 1 with
TTL equal to the window when no entry exists, and writes the wrapping u32
increment (v + 1) % 2 ^ 32 with the remaining TTL preserved when an entry
exists. -/
theorem hit_step : ∀ (t : ThrottlesService) (c : Cache), c.setFails = false →
    (c.lookup t.key = none →
      t.hit_run c = Outcome.ok ()
        { c with store :=
            (t.key, ⟨1, some t.period⟩) ::
              c.store.filter (fun p => !(p.1 == t.key)) }) ∧
    (∀ v d, c.lookup t.key = some ⟨v, some d⟩ →
      t.hit_run c = Outcome.ok ()
        { c with store :=
            (t.key, ⟨(v + 1) % U32_MOD, some d⟩) ::
              c.store.filter (fun p => !(p.1 == t.key)) }) := by
  intro t c hf
  refine ⟨fun h0 => hit_run_none t c hf h0, fun v d hl => ?_⟩
  simpa using hit_run_some t c v (some d) hf hl

/-- Witness for C2 at a concrete input: first hit writes count 1 with the
full window. -/
theorem hit_step_w :
    t2w.hit_run cEmpty = Outcome.ok ()
      { cEmpty with store :=
          (t2w.key, ⟨1, some t2w.period⟩) ::
            cEmpty.store.filter (fun p => !(p.1 == t2w.key)) } :=
  (hit_step t2w cEmpty rfl).1 rfl

/-- Counterexample to C2 as stated: at stored count 4294967295 (u32 max)
with remaining TTL 42, hit writes 0, not count + 1. -/
theorem hit_wrap_cex :
    cOv.lookup t2w.key = some ⟨4294967295, some 42⟩ ∧
    t2w.hit_run cOv = Outcome.ok () ⟨[("pip", ⟨0, some 42⟩)], false, false⟩ ∧
    (0 : Nat) ≠ 4294967295 + 1 := by decide

/-- Counterexample to C3 as stated: on a cache whose set and remove fail,
hit and remove panic (unwrap on an Err); the CacheError is not returned to
the caller as an error value. -/
theorem error_propagation_cex :
    cFail.setFails = true ∧ cFail.removeFails = true ∧
    tS.hit_run cFail = Outcome.panicked ∧
    tS.hit_run cFail ≠ Outcome.err CacheError.cacheError ∧
    tS.remove_run cFail = Outcome.panicked ∧
    tS.remove_run cFail ≠ Outcome.err CacheError.cacheError := by decide

/-- C3 (amended): when the cache set operation fails during hit, or the
cache remove operation fails during remove, the operation panics (the code
unwraps the Result); no error value is returned. -/
theorem errors_panic : ∀ (t : ThrottlesService) (c : Cache),
    (c.setFails = true → t.hit_run c = Outcome.panicked) ∧
    (c.removeFails = true → t.remove_run c = Outcome.panicked) := by
  intro t c
  constructor
  · intro h
    cases hv : t.get_value c with
    | none => simp [ThrottlesService.hit_run, hv, Cache.set, h]
    | some v => simp [ThrottlesService.hit_run, hv, Cache.set, h]
  · intro h
    simp [ThrottlesService.remove_run, Cache.remove, h]

/-- Witness for C3's amended claim at a concrete input. -/
theorem errors_panic_w :
    tS.hit_run cFail = Outcome.panicked ∧
    tS.remove_run cFail = Outcome.panicked :=
  ⟨(errors_panic tS cFail).1 rfl, (errors_panic tS cFail).2 rfl⟩

/-- C4 (amended): starting from a cache with no entry under key() and
succeeding writes, n hits (1 ≤ n < 2 ^ 32) leave the stored count equal
to n. -/
theorem iter_hit_count : ∀ (t : ThrottlesService) (c : Cache) (n : Nat),
    c.setFails = false → c.lookup t.key = none → 1 ≤ n → n < U32_MOD →
    (t.iterHit n c).get t.key = some n := by
  intro t c n hf h0 h1 h2
  have h := (iterHit_lookup t c hf h0 n h1).1
  simp [Cache.get, h, Nat.mod_eq_of_lt h2]

/-- Witness for C4's amended claim: two hits from empty store count 2. -/
theorem iter_hit_count_w : (t2w.iterHit 2 cEmpty).get t2w.key = some 2 :=
  iter_hit_count t2w cEmpty 2 rfl rfl (by decide) (by decide)

/-- Counterexample to C4 as stated: after 2 ^ 32 hits from an empty cache
the stored count is 0, not 2 ^ 32 (the u32 count wrapped). -/
theorem iter_hit_cex :
    cEmpty.lookup t2w.key = none ∧
    (t2w.iterHit 4294967296 cEmpty).get t2w.key = some 0 ∧
    some (0 : Nat) ≠ some (4294967296 : Nat) := by
  refine ⟨rfl, ?_, by decide⟩
  have h := (iterHit_lookup t2w cEmpty rfl rfl 4294967296 (by decide)).1
  simp [Cache.get, h, U32_MOD]

/-- Counterexample to C5 as stated: with limit 0 and no entry under key(),
can_go returns false, not true (0 < 0 fails). -/
theorem limit_zero_cex :
    tZero.max_attempts = 0 ∧ cEmpty.lookup tZero.key = none ∧
    tZero.can_go cEmpty = false := by decide

/-- C5 (amended): with limit 0, can_go returns false on every cache state,
including before any hit: the identity is blocked from the start. -/
theorem limit_zero_blocked : ∀ (t : ThrottlesService) (c : Cache),
    t.max_attempts = 0 → t.can_go c = false := by
  intro t c h
  simp [ThrottlesService.can_go, h]

/-- Witness for C5's amended claim at a concrete input. -/
theorem limit_zero_blocked_w : tZero.can_go cEmpty = false :=
  limit_zero_blocked tZero cEmpty rfl

/-- Counterexample to C6 as stated: when the stored remaining TTL equals
the configured window, get_expire returns the window although the cache
reports an expiry, so the window is not returned exactly when the cache
reports none. -/
theorem get_expire_cex :
    Cache.expire c6 t2w.key = some 60 ∧
    some (60 : Duration) ≠ (none : Option Duration) ∧
    t2w.get_expire c6 = t2w.period := by decide

/-- C6 (amended): get_expire returns the TTL the cache reports when it
reports one, and returns the configured window whenever the cache reports
no expiry. -/
theorem get_expire_cases : ∀ (t : ThrottlesService) (c : Cache),
    (∀ d, c.expire t.key = some d → t.get_expire c = d) ∧
    (c.expire t.key = none → t.get_expire c = t.period) := by
  intro t c
  refine ⟨fun d h => ?_, fun h => ?_⟩
  · simp [ThrottlesService.get_expire, h]
  · simp [ThrottlesService.get_expire, h]

/-- Witness for C6's amended claim: no entry, so the window is returned. -/
theorem get_expire_cases_w : tS.get_expire cEmpty = tS.period :=
  (get_expire_cases tS cEmpty).2 rfl

/-- C7: after remove succeeds there is no entry under key(): get returns
absent and can_go behaves exactly as on a cache never hit. -/
theorem remove_resets : ∀ (t : ThrottlesService) (c c1 : Cache),
    t.remove_run c = Outcome.ok () c1 →
    c1.lookup t.key = none ∧ c1.get t.key = none ∧
    t.can_go c1 = t.can_go cEmpty := by
  intro t c c1 h
  have hstore : c1.store = c.store.filter (fun p => !(p.1 == t.key)) := by
    unfold ThrottlesService.remove_run Cache.remove at h
    cases hrf : c.removeFails with
    | true => rw [hrf] at h; simp at h
    | false =>
      rw [hrf] at h
      simp only [Bool.false_eq_true, if_false, Outcome.ok.injEq, true_and] at h
      rw [← h]
  have hl : c1.lookup t.key = none := by
    unfold Cache.lookup
    rw [hstore, find?_filter_none]
    rfl
  have hg : c1.get t.key = none := by simp [Cache.get, hl]
  have h2 : t.get_value c1 = none := by simp [ThrottlesService.get_value, hg]
  have h3 : t.get_value cEmpty = none := rfl
  exact ⟨hl, hg, by simp [ThrottlesService.can_go, h2, h3]⟩

/-- Witness for C7 at a concrete input: removing under cW deletes t2w's
entry and leaves the unrelated key. -/
theorem remove_resets_w :
    c1W.lookup t2w.key = none ∧ c1W.get t2w.key = none ∧
    t2w.can_go c1W = t2w.can_go cEmpty :=
  remove_resets t2w cW c1W (by decide)

/-- C8: can_go and get_expire return normally (no error, no panic) and
leave the cache state unchanged. -/
theorem reads_pure : ∀ (t : ThrottlesService) (c : Cache),
    t.can_go_run c = Outcome.ok (t.can_go c) c ∧
    t.get_expire_run c = Outcome.ok (t.get_expire c) c := by
  intro t c
  constructor
  · simp [ThrottlesService.can_go_run, Cache.get_run, ThrottlesService.can_go,
      ThrottlesService.get_value]
  · cases h : c.expire t.key with
    | none =>
      simp [ThrottlesService.get_expire_run, Cache.expire_run,
        ThrottlesService.get_expire, h]
    | some a =>
      simp [ThrottlesService.get_expire_run, Cache.expire_run,
        ThrottlesService.get_expire, h]

/-- C9: hit increments the stored count in u32 arithmetic: the written
count is (v + 1) % 2 ^ 32, which equals v + 1 below the u32 maximum and
wraps to 0 at v = 2 ^ 32 - 1. -/
theorem hit_u32 : ∀ (t : ThrottlesService) (c c1 : Cache) (v : Nat)
    (d : Option Duration),
    c.setFails = false → c.lookup t.key = some ⟨v, d⟩ →
    t.hit_run c = Outcome.ok () c1 →
    c1.get t.key = some ((v + 1) % U32_MOD) ∧
    (v + 1 < U32_MOD → c1.get t.key = some (v + 1)) ∧
    (v = U32_MOD - 1 → c1.get t.key = some 0) := by
  intro t c c1 v d hf hl hr
  rw [hit_run_some t c v d hf hl] at hr
  simp only [Outcome.ok.injEq, true_and] at hr
  subst hr
  have hget : Cache.get
      { c with store :=
          (t.key, ⟨(v + 1) % U32_MOD, some (d.getD t.period)⟩) ::
            c.store.filter (fun p => !(p.1 == t.key)) } t.key =
        some ((v + 1) % U32_MOD) := by
    simp [Cache.get, lookup_update]
  refine ⟨hget, fun hlt => ?_, fun hv => ?_⟩
  · rw [hget, Nat.mod_eq_of_lt hlt]
  · subst hv
    rw [hget]
    norm_num [U32_MOD]

/-- Witness for C9 at the u32 maximum: the written count is 0. -/
theorem hit_u32_w :
    c9r.get t9.key = some ((4294967295 + 1) % U32_MOD) ∧
    (4294967295 + 1 < U32_MOD → c9r.get t9.key = some (4294967295 + 1)) ∧
    (4294967295 = U32_MOD - 1 → c9r.get t9.key = some 0) :=
  hit_u32 t9 c9 c9r 4294967295 (some 30) rfl rfl (by decide)

/-- C10: key() is bare concatenation and not injective: tA and tB have
distinct configurations but equal keys, and on every cache state they read
the same stored counter and the same remaining window. -/
theorem key_not_injective :
    ThrottlesService.key tA = ThrottlesService.key tB ∧
    (tA.pre, tA.ip) ≠ (tB.pre, tB.ip) ∧
    ∀ c : Cache, tA.get_value c = tB.get_value c ∧
      tA.get_expire c = tB.get_expire c := by
  have hk : ThrottlesService.key tA = ThrottlesService.key tB := by decide
  refine ⟨hk, by decide, fun c => ⟨?_, ?_⟩⟩
  · simp [ThrottlesService.get_value, hk]
  · cases h : Cache.expire c (ThrottlesService.key tB) with
    | none => simp [ThrottlesService.get_expire, hk, h]; rfl
    | some a => simp [ThrottlesService.get_expire, hk, h]

end ThrottleRo
